import Mathlib

/-
Verification of the JSON-driven prompt templating and registration subsystem
of the mcp-test repository (src/src/prompts/validator.py, prompt_loader.py,
prompt_registry.py), shallowly embedded in Lean 4.

Python values (JSON data, keyword arguments, argument defaults) are modelled
by the inductive type `PyVal`; Python dicts with string keys are modelled as
insertion-ordered association lists `List (String × PyVal)` (lookup finds the
first matching key, assignment replaces in place or appends, mirroring dict
semantics for the unique-key dictionaries the code builds). Fallible Python
code is modelled with `Except PyError`.
-/

set_option autoImplicit false

namespace MCPTest

/-- A Python value as it occurs in the prompt subsystem: JSON scalars and
containers plus keyword-argument values. Floats are carried by their decimal
representation string; no verified claim computes with float payloads. -/
inductive PyVal where
  | null : PyVal
  | bool (b : Bool) : PyVal
  | int (n : Int) : PyVal
  | float (repr : String) : PyVal
  | str (s : String) : PyVal
  | arr (items : List PyVal) : PyVal
  | obj (fields : List (String × PyVal)) : PyVal

/-- Errors raised by the embedded Python code. -/
inductive PyError where
  | valueError (msg : String) : PyError
  | keyError (key : String) : PyError
  | typeError (msg : String) : PyError
  | attributeError (msg : String) : PyError
  | indexError : PyError
  | validationError (msg : String) : PyError
  | fileNotFoundError (msg : String) : PyError
deriving DecidableEq

/-- Dictionary lookup, `d[k]` and `d.get(k)`: first binding of the key. -/
def dget : List (String × PyVal) → String → Option PyVal
  | [], _ => none
  | (k, v) :: rest, key => if k = key then some v else dget rest key

/-- Dictionary lookup with default, `d.get(k, dflt)`. -/
def dgetD (d : List (String × PyVal)) (key : String) (dflt : PyVal) : PyVal :=
  (dget d key).getD dflt

/-- Dictionary assignment `d[k] = v`: replace the binding in place if the key
is present (keeping its position, as Python dicts do), else append. -/
def dinsert : List (String × PyVal) → String → PyVal → List (String × PyVal)
  | [], k, v => [(k, v)]
  | (k0, v0) :: rest, k, v =>
      if k0 = k then (k, v) :: rest else (k0, v0) :: dinsert rest k v

/-- A single quote character, used to build the error messages of
validator.py without a literal quote in the Lean source. -/
def sq : String := (Char.ofNat 39).toString

/-- Python `isinstance(v, str)`. -/
def isinstStr : PyVal → Bool
  | .str _ => true
  | _ => false

/-- Python `isinstance(v, (int, float))`. Booleans are instances of `int` in
Python (bool is a subclass of int), so `.bool` values pass this check. -/
def isinstNum : PyVal → Bool
  | .int _ => true
  | .float _ => true
  | .bool _ => true
  | _ => false

/-- Python `isinstance(v, bool)`. -/
def isinstBool : PyVal → Bool
  | .bool _ => true
  | _ => false

/-- Python `==` between a value and a string literal: only equal strings
compare equal (no cross-type equality with str). -/
def isStrEq (v : PyVal) (s : String) : Bool :=
  match v with
  | .str t => t = s
  | _ => false

/-- Python truthiness, used for `if is_required:`. Floats are truthy unless
their representation is a zero form; no verified claim exercises that case. -/
def truthy : PyVal → Bool
  | .null => false
  | .bool b => b
  | .int n => n ≠ 0
  | .float r => ¬ (r = "0.0" ∨ r = "-0.0" ∨ r = "0")
  | .str s => s ≠ ""
  | .arr items => ¬ items.isEmpty
  | .obj fields => ¬ fields.isEmpty

/-! ## validator.py, `ContentValidator.validate_arguments` (lines 84-131) -/

/-- The `arg["name"]` access on one argument definition. The content schema
requires `name` to be a present string; a missing key raises `KeyError` as in
Python, and a non-string name (which Python would carry as a non-string dict
key, a case no claim depends on) is rejected here. -/
def specArgName (spec : List (String × PyVal)) : Except PyError String :=
  match dget spec "name" with
  | some (.str s) => Except.ok s
  | some _ => Except.error (.typeError "argument name must be a string")
  | none => Except.error (.keyError "name")

/-- The names of all argument definitions, as collected by the
`arg_definitions = \x7barg["name"]: arg for arg in prompt_args\x7d`
comprehension. Indexing a non-dict raises `TypeError` as in Python. -/
def argDefNames : List PyVal → Except PyError (List String)
  | [] => Except.ok []
  | .obj fields :: rest =>
      match specArgName fields with
      | .error e => Except.error e
      | .ok n =>
          match argDefNames rest with
          | .error e => Except.error e
          | .ok ns => Except.ok (n :: ns)
  | _ :: _ => Except.error (.typeError "argument definition must be a mapping")

/-- Dictionary key membership, `arg_name in arg_definitions`. -/
def nameMem : List String → String → Bool
  | [], _ => false
  | n :: rest, k => if n = k then true else nameMem rest k

/-- The `for arg_name in provided_args:` loop: the first provided key with no
matching argument definition, in insertion order. -/
def findUnknownArg (names : List String) : List (String × PyVal) → Option String
  | [] => none
  | (k, _) :: rest =>
      if nameMem names k then findUnknownArg names rest else some k

/-- The message `f"Argument _{arg_name}_ must be a _{ty}_"` (with single
quotes around the name, as in validator.py). -/
def argMustBe (name ty : String) : String :=
  "Argument " ++ sq ++ name ++ sq ++ " must be a " ++ ty

/-- The `elif` chain of basic type checking in validate_arguments
(validator.py lines 117-123): returns the expected-type word of the failing
branch, or `none` when no branch raises. -/
def typeMismatch (expectedType : PyVal) (v : PyVal) : Option String :=
  if isStrEq expectedType "string" && !isinstStr v then some "string"
  else if isStrEq expectedType "number" && !isinstNum v then some "number"
  else if isStrEq expectedType "boolean" && !isinstBool v then some "boolean"
  else none

/-- The default value of an argument definition: `arg_def.get("default")`
yields Python `None` both when the key is absent and when it is null, and the
later test is `default_value is not None`, so both cases mean no default. -/
def pyDefault (spec : List (String × PyVal)) : Option PyVal :=
  match dget spec "default" with
  | some .null => none
  | some v => some v
  | none => none

/-- One iteration of the `for arg_def in prompt_args:` loop of
validate_arguments (validator.py lines 109-129), acting on the accumulated
`processed_args`. -/
def processArg (provided : List (String × PyVal)) (processed : List (String × PyVal)) :
    PyVal → Except PyError (List (String × PyVal))
  | .obj spec =>
      match specArgName spec with
      | .error e => Except.error e
      | .ok argName =>
          let isRequired := truthy (dgetD spec "required" (.bool false))
          let expectedType := dgetD spec "type" (.str "string")
          match dget provided argName with
          | some value =>
              match typeMismatch expectedType value with
              | some ty => Except.error (.valueError (argMustBe argName ty))
              | none => Except.ok (dinsert processed argName value)
          | none =>
              if isRequired then
                Except.error (.valueError ("Required argument missing: " ++ argName))
              else
                match pyDefault spec with
                | some d => Except.ok (dinsert processed argName d)
                | none => Except.ok processed
  | _ => Except.error (.typeError "argument definition must be a mapping")

/-- The whole `for arg_def in prompt_args:` loop. -/
def processArgs (provided : List (String × PyVal)) :
    List PyVal → List (String × PyVal) → Except PyError (List (String × PyVal))
  | [], processed => Except.ok processed
  | spec :: rest, processed =>
      match processArg provided processed spec with
      | .error e => Except.error e
      | .ok processed2 => processArgs provided rest processed2

/-- `ContentValidator.validate_arguments` (validator.py lines 84-131):
reject unknown provided keys, then resolve each declared argument in order
(type-check supplied values, enforce required, apply defaults). -/
def validate_arguments (promptArgs : List PyVal) (provided : List (String × PyVal)) :
    Except PyError (List (String × PyVal)) :=
  match argDefNames promptArgs with
  | .error e => Except.error e
  | .ok names =>
      match findUnknownArg names provided with
      | some u => Except.error (.valueError ("Unknown argument: " ++ u))
      | none => processArgs provided promptArgs []

/-! ## prompt_loader.py, special argument processing (lines 175-203) -/

/-- The `component_guidance` mapping of `_process_mcp_development_args`. -/
def componentGuidance : List (String × PyVal) :=
  [("tool", .str "functions that can be called by the LLM to perform actions"),
   ("resource", .str "static or dynamic content that can be accessed by the LLM"),
   ("prompt", .str "template messages that help structure LLM interactions"),
   ("server", .str "complete MCP server with multiple tools, resources, and prompts")]

/-- The value `component_guidance.get(component_type, "MCP components")` with
`component_type = args.get("component_type", "tool")`: a non-string component
type matches no string key of the table, hence the fallback. -/
def componentGuidanceFor (args : List (String × PyVal)) : PyVal :=
  match dgetD args "component_type" (.str "tool") with
  | .str s => dgetD componentGuidance s (.str "MCP components")
  | _ => .str "MCP components"

/-- `JSONPromptLoader._process_mcp_development_args` (lines 175-188). -/
def process_mcp_development_args (args : List (String × PyVal)) : List (String × PyVal) :=
  dinsert args "component_guidance" (componentGuidanceFor args)

/-- The `debugging_steps` mapping of `_process_debugging_args`. -/
def debuggingSteps : List (String × PyVal) :=
  [("runtime", .str "stack trace analysis, variable inspection, and runtime state examination"),
   ("syntax", .str "code parsing, syntax validation, and formatting issues"),
   ("logic", .str "algorithm review, test case analysis, and expected vs actual behavior"),
   ("performance", .str "profiling, bottleneck identification, and optimization opportunities")]

/-- The value `debugging_steps.get(error_type, "general debugging methodology")`
with `error_type = args.get("error_type", "runtime")`. -/
def debuggingStepsFor (args : List (String × PyVal)) : PyVal :=
  match dgetD args "error_type" (.str "runtime") with
  | .str s => dgetD debuggingSteps s (.str "general debugging methodology")
  | _ => .str "general debugging methodology"

/-- `JSONPromptLoader._process_debugging_args` (lines 190-203). -/
def process_debugging_args (args : List (String × PyVal)) : List (String × PyVal) :=
  dinsert args "debugging_steps" (debuggingStepsFor args)

/-- Python substring membership `pat in s` on character lists. -/
def listContainsSub (pat : List Char) : List Char → Bool
  | [] => pat.isEmpty
  | c :: rest => pat.isPrefixOf (c :: rest) || listContainsSub pat rest

/-- Python substring membership `pat in s` for strings. -/
def containsSubstr (s pat : String) : Bool :=
  listContainsSub pat.toList s.toList

/-- The special-processing dispatch inside the synthesized prompt function
(prompt_loader.py lines 75-79): an `if`/`elif` chain keyed on substrings of
the prompt name, so the development branch takes precedence when the name
contains both markers. -/
def specialProcess (promptName : String) (args : List (String × PyVal)) :
    List (String × PyVal) :=
  if containsSubstr promptName "mcp_development_prompt" then
    process_mcp_development_args args
  else if containsSubstr promptName "debugging_assistant_prompt" then
    process_debugging_args args
  else args

/-! ## prompt_loader.py, `_preprocess_template` (lines 138-173) -/

/-- The opening brace character (written by code point to keep braces out of
the source text). -/
def lbrace : Char := Char.ofNat 123

/-- The closing brace character. -/
def rbrace : Char := Char.ofNat 125

/-- A regex `\w` character (ASCII range; the templates are ASCII). -/
def isWordChar (c : Char) : Bool := c.isAlphanum || c = Char.ofNat 95

/-- Python `str.upper()` (ASCII case mapping). -/
def pyUpper (s : String) : String := String.mk (s.toList.map Char.toUpper)

/-- Python `str.lower()` (ASCII case mapping). -/
def pyLower (s : String) : String := String.mk (s.toList.map Char.toLower)

/-- Python `str.capitalize()`: first character uppercased, the rest lowered. -/
def pyCapitalize (s : String) : String :=
  match s.toList with
  | [] => ""
  | c :: rest => String.mk (Char.toUpper c :: rest.map Char.toLower)

/-- Worker for `pyTitle`: uppercase a letter that follows a non-letter,
lowercase other letters. -/
def pyTitleAux : Bool → List Char → List Char
  | _, [] => []
  | afterNonAlpha, c :: rest =>
      if c.isAlpha then
        (if afterNonAlpha then c.toUpper else c.toLower) :: pyTitleAux false rest
      else
        c :: pyTitleAux true rest

/-- Python `str.title()` (ASCII case mapping). -/
def pyTitle (s : String) : String := String.mk (pyTitleAux true s.toList)

/-- Dispatch on the method name of a matched `.method()` call inside
`replace_method_call`: only upper, lower, title and capitalize are handled. -/
def applyStrMethod (methodName : String) (v : String) : Option String :=
  if methodName = "upper" then some (pyUpper v)
  else if methodName = "lower" then some (pyLower v)
  else if methodName = "title" then some (pyTitle v)
  else if methodName = "capitalize" then some (pyCapitalize v)
  else none

/-- Try to match the regex pattern of `_preprocess_template`,
brace + word-chars + dot + word-chars + parens + brace, at the head of the
character list; on success return the variable name, the method name and the
characters after the match. The two word groups are maximal runs, exactly as
the greedy regex matches them (the following required literal is not a word
character, so no backtracking can occur). -/
def methodMatch : List Char → Option (String × String × List Char)
  | [] => none
  | c :: rest =>
      if c = lbrace then
        let w1 := rest.takeWhile isWordChar
        let r1 := rest.dropWhile isWordChar
        if w1.isEmpty then none
        else
          match r1 with
          | '.' :: r2 =>
              let w2 := r2.takeWhile isWordChar
              let r3 := r2.dropWhile isWordChar
              if w2.isEmpty then none
              else
                match r3 with
                | '(' :: ')' :: c4 :: r4 =>
                    if c4 = rbrace then some (String.mk w1, String.mk w2, r4)
                    else none
                | _ => none
          | _ => none
      else none

/-- The replacement function `replace_method_call` (lines 154-170): resolve
the call when the variable is a provided string and the method is one of the
four handled ones, otherwise reproduce the matched text unchanged. -/
def replaceMethodCall (args : List (String × PyVal)) (varName methodName : String) :
    List Char :=
  let original :=
    lbrace :: varName.toList ++ '.' :: methodName.toList ++ '(' :: ')' :: [rbrace]
  match dget args varName with
  | some (.str v) =>
      match applyStrMethod methodName v with
      | some r => r.toList
      | none => original
  | _ => original

/-- The `re.sub` scan of `_preprocess_template`: walk the template left to
right; at each position either replace a leftmost pattern match and resume
after it, or emit the character. The fuel equals the remaining length on
entry and every step consumes at least one character, so the zero-fuel branch
is unreachable. -/
def preprocessAux (args : List (String × PyVal)) : Nat → List Char → List Char
  | _, [] => []
  | 0, l => l
  | Nat.succ fuel, c :: rest =>
      match methodMatch (c :: rest) with
      | some (varName, methodName, after) =>
          replaceMethodCall args varName methodName ++ preprocessAux args fuel after
      | none => c :: preprocessAux args fuel rest

/-- `JSONPromptLoader._preprocess_template` (lines 138-173). -/
def preprocess_template (template : String) (args : List (String × PyVal)) : String :=
  String.mk (preprocessAux args template.length template.toList)

/-! ## Python `str.format(**kwargs)` on the preprocessed template -/

/-- Failures of `str.format`: a missing keyword field raises `KeyError` (the
only failure the synthesized prompt function catches), a positional field
raises `IndexError` because no positional arguments are ever passed, and a
malformed format string raises `ValueError`. -/
inductive FmtErr where
  | keyError (key : String) : FmtErr
  | indexError : FmtErr
  | valueError (msg : String) : FmtErr
  | attributeError : FmtErr
deriving DecidableEq

/-- Python `str(v)` for substituted values. Containers render in a simplified
repr (no claim substitutes a container into a template). -/
def pyStr : PyVal → String
  | .null => "None"
  | .bool true => "True"
  | .bool false => "False"
  | .int n => toString n
  | .float r => r
  | .str s => s
  | .arr _ => "<list>"
  | .obj _ => "<dict>"

/-- Resolve one replacement field of a format string. The argument name is
the part of the field before any accessor, conversion or format-spec
character, as the format mini-language splits it. An empty or all-digit
argument name is positional and raises `IndexError` (the code passes keyword
arguments only); an unknown keyword raises `KeyError`. Accessors on a found
value (attribute or index access after the name) are modelled as
`AttributeError`; no verified claim exercises that branch. -/
def fieldLookup (args : List (String × PyVal)) (field : List Char) : Except FmtErr String :=
  let argName := field.takeWhile (fun c => !(c = '.' || c = '[' || c = '!' || c = ':'))
  if argName.isEmpty || argName.all Char.isDigit then Except.error .indexError
  else
    match dget args (String.mk argName) with
    | none => Except.error (.keyError (String.mk argName))
    | some v =>
        if argName.length = field.length then Except.ok (pyStr v)
        else Except.error .attributeError

/-- The incremental scan of `str.format`: `field` is `none` in literal text
and `some buf` inside a replacement field. Doubled braces are escapes; a
stray closing brace or an unterminated or nested field is a `ValueError`,
exactly when CPython raises one. Fields are resolved as they are reached, so
the leftmost failing field decides the exception. -/
def formatScanAux (args : List (String × PyVal)) :
    Nat → Option (List Char) → List Char → Except FmtErr (List Char)
  | _, none, [] => Except.ok []
  | _, some _, [] => Except.error (.valueError "expected closing brace before end of string")
  | 0, _, l =>
      -- Unreachable: the fuel equals the remaining length on entry and every
      -- step consumes at least one character.
      Except.error (.valueError (String.mk l))
  | Nat.succ fuel, none, c :: rest =>
      if c = lbrace then
        match rest with
        | c2 :: rest2 =>
            if c2 = lbrace then
              match formatScanAux args fuel none rest2 with
              | .error e => Except.error e
              | .ok out => Except.ok (lbrace :: out)
            else formatScanAux args fuel (some []) rest
        | [] => Except.error (.valueError "Single brace encountered in format string")
      else if c = rbrace then
        match rest with
        | c2 :: rest2 =>
            if c2 = rbrace then
              match formatScanAux args fuel none rest2 with
              | .error e => Except.error e
              | .ok out => Except.ok (rbrace :: out)
            else Except.error (.valueError "Single brace encountered in format string")
        | [] => Except.error (.valueError "Single brace encountered in format string")
      else
        match formatScanAux args fuel none rest with
        | .error e => Except.error e
        | .ok out => Except.ok (c :: out)
  | Nat.succ fuel, some buf, c :: rest =>
      if c = rbrace then
        match fieldLookup args buf with
        | .error e => Except.error e
        | .ok s =>
            match formatScanAux args fuel none rest with
            | .error e => Except.error e
            | .ok out => Except.ok (s.toList ++ out)
      else if c = lbrace then
        Except.error (.valueError "unexpected brace in field name")
      else formatScanAux args fuel (some (buf ++ [c])) rest

/-- Python `template.format(**args)`. -/
def formatString (template : String) (args : List (String × PyVal)) :
    Except FmtErr String :=
  match formatScanAux args template.length none template.toList with
  | .error e => Except.error e
  | .ok out => Except.ok (String.mk out)

/-! ## prompt_loader.py, the synthesized prompt function (lines 62-99) -/

/-- One message object produced by a prompt function: a role (taken verbatim
from the definition, default `"user"`) and the formatted content. -/
structure PromptMessage where
  role : PyVal
  content : String

/-- Format errors other than `KeyError` escape the `try` of the prompt
function; this maps them to the raised Python exception. -/
def fmtErrToPy : FmtErr → PyError
  | .keyError k => .keyError k
  | .indexError => .indexError
  | .valueError m => .valueError m
  | .attributeError => .attributeError "format field accessor"

/-- The synthesized `prompt_function(**kwargs)` of
`JSONPromptLoader.create_prompt_function` (prompt_loader.py lines 62-99):
validate the keyword arguments against the declared argument list, apply the
name-keyed special processing, preprocess the template for method calls,
format it, and on a `KeyError` alone fall back to the original template (the
printed warning is a side effect outside the model). The schema guarantees
`arguments` is an array and `template` a string; other shapes raise as the
corresponding Python operations would. -/
def prompt_function (promptName : String) (promptDef : List (String × PyVal))
    (kwargs : List (String × PyVal)) : Except PyError (List PromptMessage) :=
  let argDefsVal := dgetD promptDef "arguments" (.arr [])
  match argDefsVal with
  | .arr argDefs =>
      match validate_arguments argDefs kwargs with
      | .error e => Except.error e
      | .ok processedArgs0 =>
          let processedArgs := specialProcess promptName processedArgs0
          match dget promptDef "template" with
          | none => Except.error (.keyError "template")
          | some (.str template) =>
              let preprocessed := preprocess_template template processedArgs
              let role := dgetD promptDef "role" (.str "user")
              match formatString preprocessed processedArgs with
              | .ok content => Except.ok [⟨role, content⟩]
              | .error (.keyError _) => Except.ok [⟨role, template⟩]
              | .error e => Except.error (fmtErrToPy e)
          | some _ => Except.error (.typeError "template must be a string")
  | _ => Except.error (.typeError "arguments must be a list")

/-! ## validator.py, schema validation (spec-modelled predicates)

The repository's schema file `src/data/content_schema.json` is not among the
sources; only `ContentValidator`, which loads it and delegates to the
`jsonschema` engine, is. The validity predicates below are therefore
modelled from the spec (sections 3 and 6), and the `validate_*` wrappers
reproduce the error wrapping of validator.py lines 43-82. -/

/-- An optional field that must be a string when present. -/
def optStr : Option PyVal → Bool
  | none => true
  | some (.str _) => true
  | some _ => false

/-- An optional field that must be a boolean when present. -/
def optBool : Option PyVal → Bool
  | none => true
  | some (.bool _) => true
  | some _ => false

/-- Modelled from the spec: an argument spec is an object with required
`name` (string), optional `type` in the enumeration string/number/boolean,
optional `description` (string) and optional `required` (boolean); `default`
is unconstrained here. -/
def argSpecValid : PyVal → Bool
  | .obj f =>
      (match dget f "name" with | some (.str _) => true | _ => false)
      && (match dget f "type" with
          | none => true
          | some (.str t) => t = "string" || t = "number" || t = "boolean"
          | some _ => false)
      && optStr (dget f "description")
      && optBool (dget f "required")
  | _ => false

/-- Modelled from the spec: a prompt definition is an object with required
`template` (string) and optional `name`, `description`, `role` (strings) and
`arguments` (array of valid argument specs). -/
def promptDefValid : PyVal → Bool
  | .obj f =>
      (match dget f "template" with | some (.str _) => true | _ => false)
      && optStr (dget f "name")
      && optStr (dget f "description")
      && optStr (dget f "role")
      && (match dget f "arguments" with
          | none => true
          | some (.arr specs) => specs.all argSpecValid
          | some _ => false)
  | _ => false

/-- A section mapping category names to arrays of strings (the `tips` and
`messages` sections), valid when absent. -/
def strListSectionValid : Option PyVal → Bool
  | none => true
  | some (.obj cats) =>
      cats.all fun kv =>
        match kv.2 with
        | .arr items => items.all fun i => match i with | .str _ => true | _ => false
        | _ => false
  | some _ => false

/-- The `prompts` section: category name to mapping of prompt key to valid
prompt definition, valid when absent. -/
def promptsSectionValid : Option PyVal → Bool
  | none => true
  | some (.obj cats) =>
      cats.all fun kv =>
        match kv.2 with
        | .obj defs => defs.all fun kd => promptDefValid kd.2
        | _ => false
  | some _ => false

/-- Modelled from the spec: the root content document is an object whose
optional `tips`, `messages` and `prompts` sections each conform to their
schema shape. -/
def contentValid : PyVal → Bool
  | .obj fields =>
      strListSectionValid (dget fields "tips")
      && strListSectionValid (dget fields "messages")
      && promptsSectionValid (dget fields "prompts")
  | _ => false

/-- `ContentValidator.validate_content` (validator.py lines 43-56): raises a
`ValidationError` wrapping the schema violation message on failure. The
schema itself is spec-modelled via `contentValid`. -/
def validate_content (content : PyVal) : Except PyError Unit :=
  if contentValid content then Except.ok ()
  else Except.error (.validationError "Content validation failed: schema violation")

/-- `ContentValidator.validate_prompt` (validator.py lines 58-82): validates
one definition against the prompt subschema, spec-modelled via
`promptDefValid`. -/
def validate_prompt (promptData : PyVal) : Except PyError Unit :=
  if promptDefValid promptData then Except.ok ()
  else Except.error (.validationError "Prompt validation failed: schema violation")

/-! ## prompt_loader.py, `JSONPromptLoader.load_prompts` (lines 29-49) -/

/-- The key under which a definition is stored:
`prompt_def.get("name", prompt_key)`. The surrounding loop has validated the
definition, so it is an object and its `name`, when present, is a string;
the non-string fallbacks are unreachable after validation. -/
def promptNameKey (promptDef : PyVal) (promptKey : String) : String :=
  match promptDef with
  | .obj f =>
      match dget f "name" with
      | some (.str s) => s
      | some _ => promptKey
      | none => promptKey
  | _ => promptKey

/-- The inner loop of `load_prompts` over one category: validate each
definition, then store it under its name (falling back to its key). -/
def loadPromptsCat (acc : List (String × PyVal)) :
    List (String × PyVal) → Except PyError (List (String × PyVal))
  | [] => Except.ok acc
  | (promptKey, promptDef) :: rest =>
      match validate_prompt promptDef with
      | .error e => Except.error e
      | .ok _ => loadPromptsCat (dinsert acc (promptNameKey promptDef promptKey) promptDef) rest

/-- The outer loop of `load_prompts` over the categories. Iterating the
items of a non-mapping category raises as in Python. -/
def loadPromptsCats (acc : List (String × PyVal)) :
    List (String × PyVal) → Except PyError (List (String × PyVal))
  | [] => Except.ok acc
  | (_, .obj defs) :: rest =>
      match loadPromptsCat acc defs with
      | .error e => Except.error e
      | .ok acc2 => loadPromptsCats acc2 rest
  | (_, _) :: _ => Except.error (.attributeError "category value has no items method")

/-- `JSONPromptLoader.load_prompts` (prompt_loader.py lines 29-49): flatten
the nested `prompts` section into a single mapping keyed by each
definition's `name` field, falling back to its dictionary key; every
definition is individually validated during the walk. -/
def load_prompts (contentData : PyVal) : Except PyError (List (String × PyVal)) :=
  match contentData with
  | .obj fields =>
      match dgetD fields "prompts" (.obj []) with
      | .obj cats => loadPromptsCats [] cats
      | _ => Except.error (.attributeError "prompts section has no items method")
  | _ => Except.error (.attributeError "content data has no get method")

/-! ## prompt_registry.py, `PromptRegistry.register_prompts_from_json` -/

/-- `PromptRegistry.register_prompts_from_json` (prompt_registry.py lines
18-35) over the registry's `registered_prompts` table: constructing the
`JSONPromptLoader` re-validates the whole document, `load_prompts` then
validates and flattens the definitions, and only then does the registration
loop run, recording each definition under its prompt name (the synthesized
callable and the `mcp.prompt()` decoration are host-framework effects outside
the model). An error anywhere before the loop leaves the caller's table
untouched, which the `Except` result captures: no updated table is produced. -/
def register_prompts_from_json (registeredPrompts : List (String × PyVal))
    (contentData : PyVal) : Except PyError (List (String × PyVal)) :=
  match validate_content contentData with
  | .error e => Except.error e
  | .ok _ =>
      match load_prompts contentData with
      | .error e => Except.error e
      | .ok prompts =>
          Except.ok (prompts.foldl (fun reg nv => dinsert reg nv.1 nv.2) registeredPrompts)

/-! ## prompt_loader.py, `load_content_from_json` (lines 238-273) -/

/-- The default path `src/data/content.json` resolved relative to the
installation when no path is given. -/
def defaultContentPath : String := "src/data/content.json"

/-- `load_content_from_json` (prompt_loader.py lines 238-273). The
filesystem is abstracted as a partial map from paths to file text and the
standard-library JSON parser as a function returning either a document or a
syntax-error message; the function's own logic (path resolution, existence
check, parse-error wrapping, validation before return) is the embedded
code. -/
def load_content_from_json (fs : String → Option String)
    (parseJson : String → Except String PyVal) (jsonFilePath : Option String) :
    Except PyError PyVal :=
  let jsonPath := jsonFilePath.getD defaultContentPath
  match fs jsonPath with
  | none => Except.error (.fileNotFoundError ("Content file not found: " ++ jsonPath))
  | some text =>
      match parseJson text with
      | .error e => Except.error (.valueError ("Invalid JSON in content file: " ++ e))
      | .ok content =>
          match validate_content content with
          | .error e => Except.error e
          | .ok _ => Except.ok content

/-! ## Concrete prompt definitions used by the claims -/

/-- A prompt whose template carries a method-call construct, exercising
`_preprocess_template`. -/
def shoutDef : List (String × PyVal) :=
  [("name", .str "shout"),
   ("template", .str "Use {x.upper()}!"),
   ("arguments", .arr
     [.obj [("name", .str "x"), ("type", .str "string"), ("required", .bool true)]])]

/-- A prompt whose template escapes braces around a method-call construct and
references an optional argument without default. -/
def escapedDef : List (String × PyVal) :=
  [("name", .str "escaped"),
   ("template", .str "\x7b\x7ba.upper()\x7d\x7d \x7bmissing\x7d"),
   ("arguments", .arr
     [.obj [("name", .str "a"), ("type", .str "string"), ("required", .bool true)],
      .obj [("name", .str "missing"), ("type", .str "string"), ("required", .bool false)]])]

/-- The code-review prompt of spec section 8, scenarios A and B. -/
def codeReviewDef : List (String × PyVal) :=
  [("name", .str "code_review"),
   ("description", .str "Review code"),
   ("template", .str "Review this {language} {code_type}"),
   ("arguments", .arr
     [.obj [("name", .str "language"), ("type", .str "string"),
            ("required", .bool false), ("default", .str "python")],
      .obj [("name", .str "code_type"), ("type", .str "string"),
            ("required", .bool false), ("default", .str "function")]])]

/-! ## Helper lemmas -/

lemma findUnknownArg_some_of_mem :
    ∀ (provided : List (String × PyVal)) (names : List String) (k : String),
      k ∈ provided.map Prod.fst → nameMem names k = false →
      ∃ u, findUnknownArg names provided = some u ∧ u ∈ provided.map Prod.fst ∧
        nameMem names u = false
  | [], _, k, hk, _ => by simp at hk
  | (k0, v0) :: rest, names, k, hk, hunk => by
      cases h : nameMem names k0 with
      | false =>
          exact ⟨k0, by simp [findUnknownArg, h], by simp, h⟩
      | true =>
          have hne : k ≠ k0 := by
            rintro rfl
            rw [h] at hunk
            exact absurd hunk (by simp)
          have hk2 : k ∈ rest.map Prod.fst := by
            simp only [List.map_cons, List.mem_cons] at hk
            exact hk.resolve_left hne
          obtain ⟨u, hu1, hu2, hu3⟩ := findUnknownArg_some_of_mem rest names k hk2 hunk
          exact ⟨u, by simp [findUnknownArg, h, hu1], by simp [hu2], hu3⟩

/-! ## The claims -/

/-- C1. The claim states that the synthesized prompt callable performs only
simple placeholder substitution and that method-call syntax such as
`x.upper()` in braces is never evaluated. The code evaluates it: with
template `Use` brace `x.upper()` brace `!` and `x = "abc"` the produced
content is `Use ABC!`, not the literal template text. The claim is right and
the code wrong: tests/test_prompt_simplification.py asserts the loader must
not have a `_preprocess_template` method, and spec section 9 declares the
simplified behavior authoritative. -/
theorem c1_method_call_is_evaluated :
    prompt_function "shout" shoutDef [("x", .str "abc")] =
      Except.ok [⟨.str "user", "Use ABC!"⟩] ∧
    ("Use ABC!" == "Use {x.upper()}!") = false :=
  ⟨rfl, rfl⟩

/-- C2. The claim states that a template referencing a placeholder absent
from the resolved arguments never raises and yields the original template.
The retained method-call preprocessing breaks this: for the template with
escaped braces around `a.upper()` followed by a `missing` placeholder, with
`a` supplied as a closing-brace string and `missing` (optional, no default)
unsupplied, preprocessing rewrites the escaped braces into an empty
positional field and formatting raises `IndexError`, which the callable does
not catch. The claim is right and the code wrong, for the same reason as C1
(the simplified loader without preprocessing returns the original template
here). -/
theorem c2_missing_placeholder_raises_with_preprocessing :
    prompt_function "escaped" escapedDef [("a", .str "\x7d")] =
      Except.error PyError.indexError :=
  rfl

/-- C3. For every list of argument specs (whose name fields resolve) and
every provided mapping containing a key with no matching spec entry,
`validate_arguments` fails with an error naming an unknown argument (the
first one in iteration order), and returns no result mapping. -/
theorem c3_unknown_argument_rejected (specs : List PyVal)
    (provided : List (String × PyVal)) (names : List String)
    (hnames : argDefNames specs = Except.ok names) (k : String)
    (hk : k ∈ provided.map Prod.fst) (hunk : nameMem names k = false) :
    ∃ u, u ∈ provided.map Prod.fst ∧ nameMem names u = false ∧
      validate_arguments specs provided =
        Except.error (.valueError ("Unknown argument: " ++ u)) := by
  obtain ⟨u, hu1, hu2, hu3⟩ := findUnknownArg_some_of_mem provided names k hk hunk
  exact ⟨u, hu2, hu3, by simp [validate_arguments, hnames, hu1]⟩

/-- Witness for C3 at a concrete input: one declared argument `language`, one
provided key `lang`. -/
theorem c3_unknown_argument_rejected_witness :
    ∃ u, u ∈ ([("lang", PyVal.str "x")] : List (String × PyVal)).map Prod.fst ∧
      nameMem ["language"] u = false ∧
      validate_arguments [.obj [("name", .str "language")]] [("lang", .str "x")] =
        Except.error (.valueError ("Unknown argument: " ++ u)) :=
  c3_unknown_argument_rejected [.obj [("name", .str "language")]]
    [("lang", .str "x")] ["language"] rfl "lang" (by decide) (by decide)

/-- C4 (amended). For every declared argument spec with a string name, the
per-argument resolution step of `validate_arguments` behaves as claimed: a
supplied value passing the declared-type check is copied into the result; a
supplied value failing it raises an error naming the argument and the
expected type; a missing value for a required argument raises
`Required argument missing: name` (capitalized as in the code, which is the
amendment); and a missing value for an optional argument without default
leaves the result unchanged, inserting no key. -/
theorem c4_argument_resolution (provided processed spec : List (String × PyVal))
    (nm : String) (hname : dget spec "name" = some (.str nm)) :
    (∀ v, dget provided nm = some v →
        typeMismatch (dgetD spec "type" (.str "string")) v = none →
        processArg provided processed (.obj spec) = Except.ok (dinsert processed nm v))
  ∧ (∀ v t, dget provided nm = some v →
        typeMismatch (dgetD spec "type" (.str "string")) v = some t →
        processArg provided processed (.obj spec) =
          Except.error (.valueError (argMustBe nm t)))
  ∧ (dget provided nm = none →
        truthy (dgetD spec "required" (.bool false)) = true →
        processArg provided processed (.obj spec) =
          Except.error (.valueError ("Required argument missing: " ++ nm)))
  ∧ (dget provided nm = none →
        truthy (dgetD spec "required" (.bool false)) = false →
        pyDefault spec = none →
        processArg provided processed (.obj spec) = Except.ok processed) := by
  have hsan : specArgName spec = Except.ok nm := by simp [specArgName, hname]
  refine ⟨?_, ?_, ?_, ?_⟩
  · intro v hv ht
    simp [processArg, hsan, hv, ht]
  · intro v t hv ht
    simp [processArg, hsan, hv, ht]
  · intro hv hr
    simp [processArg, hsan, hv, hr]
  · intro hv hr hd
    simp [processArg, hsan, hv, hr, hd]

/-- Witness for C4 at a concrete input: the required-missing branch for an
argument `topic` with no supplied value. -/
theorem c4_argument_resolution_witness :
    processArg [] [] (.obj [("name", .str "topic"), ("required", .bool true)]) =
      Except.error (.valueError ("Required argument missing: " ++ "topic")) :=
  (c4_argument_resolution [] [] [("name", .str "topic"), ("required", .bool true)]
    "topic" rfl).2.2.1 rfl rfl

/-- Counterexample for C4 as stated: the required-missing failure message is
`Required argument missing: topic` with a capital R, not the lowercase
`required argument missing: topic` the claim quotes. -/
theorem c4_counterexample :
    validate_arguments [.obj [("name", .str "topic"), ("required", .bool true)]] [] =
      Except.error (.valueError "Required argument missing: topic") ∧
    ("Required argument missing: topic" == "required argument missing: topic") = false :=
  ⟨rfl, rfl⟩

/-- C10. For every argument spec declared with type `number` and any
supplied boolean value, `validate_arguments` accepts the boolean without a
type error and copies it unchanged into the resolved arguments, because
`isinstance(value, (int, float))` holds for booleans in Python. -/
theorem c10_number_accepts_bool (nm : String) (b : Bool) :
    validate_arguments [.obj [("name", .str nm), ("type", .str "number")]]
      [(nm, .bool b)] = Except.ok [(nm, .bool b)] := by
  simp [validate_arguments, argDefNames, specArgName, dget, findUnknownArg, nameMem,
    processArgs, processArg, typeMismatch, isStrEq, isinstNum, dgetD, dinsert,
    pyDefault, truthy]

/-- Witness for C10 at a concrete input: a boolean `true` supplied for the
number-typed argument `threshold`. -/
theorem c10_number_accepts_bool_witness :
    validate_arguments [.obj [("name", .str "threshold"), ("type", .str "number")]]
      [("threshold", .bool true)] = Except.ok [("threshold", .bool true)] :=
  c10_number_accepts_bool "threshold" true

/-- C5. If any prompt definition in the configuration's prompts section
fails individual validation, `register_prompts_from_json` registers nothing:
the run fails with a validation error before the registration loop, so the
caller's registry table is left untouched (the `Except.error` result carries
no updated table). The failure surfaces at the document-level validation run
when the loader is constructed, or during `load_prompts` — in either case
before any callable is synthesized. -/
theorem c5_no_partial_registration (reg : List (String × PyVal))
    (fields cats defs : List (String × PyVal)) (cat key : String) (pdef : PyVal)
    (hp : dget fields "prompts" = some (.obj cats))
    (hc : (cat, PyVal.obj defs) ∈ cats)
    (hd : (key, pdef) ∈ defs)
    (hbad : promptDefValid pdef = false) :
    register_prompts_from_json reg (.obj fields) =
      Except.error (.validationError "Content validation failed: schema violation") := by
  have hsec : promptsSectionValid (dget fields "prompts") = false := by
    rw [hp]
    cases hall : (cats.all fun kv =>
        match kv.2 with
        | .obj defs2 => defs2.all fun kd => promptDefValid kd.2
        | _ => false) with
    | false => simpa [promptsSectionValid] using hall
    | true =>
        exfalso
        have h1 := List.all_eq_true.mp hall _ hc
        simp only at h1
        have h2 := List.all_eq_true.mp h1 _ hd
        simp only at h2
        rw [hbad] at h2
        exact absurd h2 (by simp)
  have hcv : contentValid (.obj fields) = false := by
    simp [contentValid, hsec]
  simp [register_prompts_from_json, validate_content, hcv]

/-- Witness for C5 at a concrete input: a prompts section with one
definition lacking a `template`, registered into an empty table. -/
theorem c5_no_partial_registration_witness :
    register_prompts_from_json []
      (.obj [("prompts", .obj [("test", .obj
        [("invalid_prompt", .obj [("name", .str "invalid_prompt")])])])]) =
      Except.error (.validationError "Content validation failed: schema violation") :=
  c5_no_partial_registration [] _ _ _ "test" "invalid_prompt"
    (.obj [("name", .str "invalid_prompt")]) rfl (List.Mem.head _) (List.Mem.head _) rfl

/-- C6. For a configuration whose prompts section holds one valid definition
under a dictionary key, `load_prompts` keys the flattened mapping by the
definition's `name` field when present — not by the dictionary key — and by
the dictionary key when `name` is absent. -/
theorem c6_name_precedence (cat key : String) (pf : List (String × PyVal))
    (hval : promptDefValid (.obj pf) = true) :
    (∀ n, dget pf "name" = some (.str n) →
        load_prompts (.obj [("prompts", .obj [(cat, .obj [(key, .obj pf)])])]) =
          Except.ok [(n, .obj pf)])
  ∧ (dget pf "name" = none →
        load_prompts (.obj [("prompts", .obj [(cat, .obj [(key, .obj pf)])])]) =
          Except.ok [(key, .obj pf)])
  ∧ (∀ n, dget pf "name" = some (.str n) → n ≠ key →
        ∃ m, load_prompts (.obj [("prompts", .obj [(cat, .obj [(key, .obj pf)])])]) =
          Except.ok m ∧ dget m key = none ∧ dget m n = some (.obj pf)) := by
  refine ⟨?_, ?_, ?_⟩
  · intro n hn
    simp [load_prompts, dgetD, dget, loadPromptsCats, loadPromptsCat,
      validate_prompt, hval, promptNameKey, hn, dinsert]
  · intro hn
    simp [load_prompts, dgetD, dget, loadPromptsCats, loadPromptsCat,
      validate_prompt, hval, promptNameKey, hn, dinsert]
  · intro n hn hne
    refine ⟨[(n, .obj pf)], ?_, ?_, ?_⟩
    · simp [load_prompts, dgetD, dget, loadPromptsCats, loadPromptsCat,
        validate_prompt, hval, promptNameKey, hn, dinsert]
    · simp [dget, hne]
    · simp [dget]

/-- Witness for C6 at a concrete input: a definition whose `name` field
`actual_name` differs from its dictionary key `dict_key`. -/
theorem c6_name_precedence_witness :
    load_prompts (.obj [("prompts", .obj [("development", .obj
      [("dict_key", .obj [("name", .str "actual_name"), ("template", .str "T")])])])]) =
      Except.ok [("actual_name", .obj [("name", .str "actual_name"), ("template", .str "T")])] :=
  (c6_name_precedence "development" "dict_key"
    [("name", .str "actual_name"), ("template", .str "T")] rfl).1 "actual_name" rfl

/-- C7. `load_content_from_json` fails with `FileNotFoundError` when the
resolved path has no file, fails with a `ValueError` wrapping the underlying
JSON syntax error when parsing fails, propagates any validation failure of a
parsed document, and validates every document it returns — so a returned
document has passed `validate_content`. -/
theorem c7_load_content_contract (fs : String → Option String)
    (parseJson : String → Except String PyVal) (p : Option String) :
    (fs (p.getD defaultContentPath) = none →
        load_content_from_json fs parseJson p =
          Except.error (.fileNotFoundError
            ("Content file not found: " ++ p.getD defaultContentPath)))
  ∧ (∀ text e, fs (p.getD defaultContentPath) = some text →
        parseJson text = Except.error e →
        load_content_from_json fs parseJson p =
          Except.error (.valueError ("Invalid JSON in content file: " ++ e)))
  ∧ (∀ text doc e2, fs (p.getD defaultContentPath) = some text →
        parseJson text = Except.ok doc → validate_content doc = Except.error e2 →
        load_content_from_json fs parseJson p = Except.error e2)
  ∧ (∀ doc, load_content_from_json fs parseJson p = Except.ok doc →
        validate_content doc = Except.ok ()) := by
  refine ⟨?_, ?_, ?_, ?_⟩
  · intro hfs
    simp [load_content_from_json, hfs]
  · intro text e hfs hparse
    simp [load_content_from_json, hfs, hparse]
  · intro text doc e2 hfs hparse hval
    simp [load_content_from_json, hfs, hparse, hval]
  · intro doc h
    simp only [load_content_from_json] at h
    cases hfs : fs (p.getD defaultContentPath) with
    | none => simp [hfs] at h
    | some text =>
        simp only [hfs] at h
        cases hparse : parseJson text with
        | error e => simp [hparse] at h
        | ok content =>
            simp only [hparse] at h
            cases hval : validate_content content with
            | error e => simp [hval] at h
            | ok u =>
                simp only [hval] at h
                simp at h
                subst h
                cases u
                exact hval

/-- Witness for C7 at a concrete input: an empty filesystem, so the default
path does not resolve. -/
theorem c7_load_content_contract_witness :
    load_content_from_json (fun _ => none) (fun _ => Except.error "syntax") none =
      Except.error (.fileNotFoundError ("Content file not found: " ++ defaultContentPath)) :=
  (c7_load_content_contract (fun _ => none) (fun _ => Except.error "syntax") none).1 rfl

/-- C8. The code-review prompt (template `Review this` with `language` and
`code_type` placeholders, defaults `python` and `function`): invoking the
synthesized callable with no arguments yields `Review this python function`,
and invoking it with `language = javascript`, `code_type = class` yields
`Review this javascript class`. -/
theorem c8_code_review_scenarios :
    prompt_function "code_review" codeReviewDef [] =
      Except.ok [⟨.str "user", "Review this python function"⟩] ∧
    prompt_function "code_review" codeReviewDef
      [("language", .str "javascript"), ("code_type", .str "class")] =
      Except.ok [⟨.str "user", "Review this javascript class"⟩] :=
  ⟨rfl, rfl⟩

/-- C9 (amended). The special processing of the synthesized prompt function
runs on the resolved arguments before template substitution: a prompt name
containing `mcp_development_prompt` gets `component_guidance` injected,
keyed by the resolved `component_type` (default `tool`) in the fixed
guidance table; a name containing `debugging_assistant_prompt` — and, by the
`elif` precedence, not `mcp_development_prompt` — gets `debugging_steps`
injected, keyed by the resolved `error_type` (default `runtime`); all other
names get no injection at all. -/
theorem c9_special_processing (promptName : String) (args : List (String × PyVal)) :
    (containsSubstr promptName "mcp_development_prompt" = true →
        specialProcess promptName args =
          dinsert args "component_guidance" (componentGuidanceFor args))
  ∧ (containsSubstr promptName "mcp_development_prompt" = false →
     containsSubstr promptName "debugging_assistant_prompt" = true →
        specialProcess promptName args =
          dinsert args "debugging_steps" (debuggingStepsFor args))
  ∧ (containsSubstr promptName "mcp_development_prompt" = false →
     containsSubstr promptName "debugging_assistant_prompt" = false →
        specialProcess promptName args = args) := by
  refine ⟨?_, ?_, ?_⟩
  · intro h1
    simp [specialProcess, h1, process_mcp_development_args]
  · intro h1 h2
    simp [specialProcess, h1, h2, process_debugging_args]
  · intro h1 h2
    simp [specialProcess, h1, h2]

/-- Witness for C9 at a concrete input: a name containing the development
marker, with no resolved arguments. -/
theorem c9_special_processing_witness :
    specialProcess "the_mcp_development_prompt" [] =
      dinsert [] "component_guidance" (componentGuidanceFor []) :=
  (c9_special_processing "the_mcp_development_prompt" []).1 rfl

/-- Counterexample for C9 as stated: a prompt name containing both markers
contains `debugging_assistant_prompt`, yet its invocation injects only
`component_guidance` — no `debugging_steps` key is added, because the
development branch of the `elif` chain wins. -/
theorem c9_counterexample :
    containsSubstr "mcp_development_prompt_debugging_assistant_prompt"
      "debugging_assistant_prompt" = true ∧
    specialProcess "mcp_development_prompt_debugging_assistant_prompt" [] =
      [("component_guidance",
        .str "functions that can be called by the LLM to perform actions")] ∧
    dget (specialProcess "mcp_development_prompt_debugging_assistant_prompt" [])
      "debugging_steps" = none :=
  ⟨rfl, rfl, rfl⟩

end MCPTest
